import Mathlib

/-!
Verification development for the map-measurement repository: an Express server
(`src/server/server.js`) exposing a small measurement CRUD API over a Mongo
collection, and an Angular/OpenLayers client (`src/unnamed/part_000`) that
converts drawn shapes into measurement payloads and submits them.

The server is embedded as pure functions over an explicit store state
(`Except String (List Record)`: `ok` holds the collection in insertion order,
`error` models an unreachable store).  JSON values are modelled by `JVal` with
rationals for JSON numbers.  The client batch-submission logic of
`finishDrawing` is embedded as a fold over callback events.
-/

namespace MapAssign

/-- A JSON value as seen by the Express handlers (`req.body` fields).
JSON numbers are modelled as rationals. -/
inductive JVal where
  | null : JVal
  | bool (b : Bool) : JVal
  | num (q : ℚ) : JVal
  | str (s : String) : JVal
  | arr (xs : List JVal) : JVal
  | obj (fields : List (String × JVal)) : JVal

/-- Property lookup on a JSON object body: `body.key` in JS,
`none` when the key is absent (JS `undefined`). -/
def jget (body : List (String × JVal)) (k : String) : Option JVal :=
  (body.find? (fun p => p.1 == k)).map (fun p => p.2)

/-- JavaScript truthiness of `req.body.field` (`undefined`, `null`, `false`,
`0` and `""` are falsy; arrays and objects are always truthy).  This is the
semantics of the `!type || !geojson || ... || !unit` guard in server.js. -/
def truthy : Option JVal → Bool
  | none => false
  | some JVal.null => false
  | some (JVal.bool b) => b
  | some (JVal.num q) => q != 0
  | some (JVal.str s) => s != ""
  | some (JVal.arr _) => true
  | some (JVal.obj _) => true

/-- `typeof value === "number"`: true exactly on JSON numbers. -/
def isNumber : Option JVal → Bool
  | some (JVal.num _) => true
  | _ => false

/-- Extract the rational from a JSON number (callers guard with `isNumber`). -/
def asNum : Option JVal → ℚ
  | some (JVal.num q) => q
  | _ => 0

/-- A persisted measurement document: `{_id, type, geojson, value, unit,
createdAt}` (the schema has `timestamps: true`; `updatedAt` always equals
`createdAt` since records are never updated, so it is not modelled
separately).  Ids and timestamps are naturals assigned by the server. -/
structure Record where
  id : Nat
  type : JVal
  geojson : JVal
  value : ℚ
  unit : JVal
  createdAt : Nat

/-- The Mongoose schema's enum validator on `type`:
`enum: ["LineString", "Polygon"]`.  `Measurement.create` rejects any other
value (a non-string truthy value casts to a string outside the enum). -/
def typeEnumOk : Option JVal → Bool
  | some (JVal.str s) => s == "LineString" || s == "Polygon"
  | _ => false

/-- Store state: `ok` is the collection in insertion order, `error` models an
unreachable store (every store operation rejects). -/
abbrev StoreSt := Except String (List Record)

/-- An HTTP response produced by a handler.  `noResponse` models an async
handler whose awaited store call rejected with no surrounding try/catch: the
rejection is unhandled and no response is sent. -/
inductive Response where
  | jsonVal (code : Nat) (body : JVal) : Response
  | jsonList (code : Nat) (records : List Record) : Response
  | created (code : Nat) (r : Record) : Response
  | text (code : Nat) (s : String) : Response
  | noResponse : Response

/-- An HTTP request line. -/
structure Request where
  method : String
  path : String

/-- Ordering used by `Measurement.find().sort({ createdAt: -1 })`:
descending creation time. -/
def byCreatedAtDesc (a b : Record) : Prop := b.createdAt ≤ a.createdAt

instance : DecidableRel byCreatedAtDesc :=
  fun a b => Nat.decLe b.createdAt a.createdAt

instance : IsTotal Record byCreatedAtDesc :=
  ⟨fun a b => Nat.le_total b.createdAt a.createdAt⟩

instance : IsTrans Record byCreatedAtDesc :=
  ⟨fun _ _ _ hab hbc => Nat.le_trans hbc hab⟩

/-- `GET /api/measurements`: `Measurement.find().sort({ createdAt: -1 })`
inside try/catch; on success 200 with all records newest-first, on store
failure 503 with diagnostic detail. -/
def getMeasurements (st : StoreSt) : Response × StoreSt :=
  match st with
  | Except.ok s =>
      (Response.jsonList 200 (List.insertionSort byCreatedAtDesc s), Except.ok s)
  | Except.error e =>
      (Response.jsonVal 503
        (JVal.obj [("error", JVal.str "Database unavailable"),
                   ("details", JVal.str e)]),
       Except.error e)

/-- `POST /api/measurements`: destructure `{type, geojson, value, unit}` from
the body, 400 when `!type || !geojson || typeof value !== "number" || !unit`,
otherwise `Measurement.create` (no try/catch): with an unreachable store or a
`type` outside the schema enum the awaited create rejects and the rejection is
unhandled (`noResponse`); otherwise the record is appended and returned
with 201. -/
def invalidPayload (body : List (String × JVal)) : Bool :=
  !(truthy (jget body "type")) || !(truthy (jget body "geojson")) ||
  !(isNumber (jget body "value")) || !(truthy (jget body "unit"))

/-- The document `Measurement.create({ type, geojson, value, unit })` builds,
with the server-assigned id and `timestamps: true` creation time (the guard
in `postMeasurement` ensures every field is present). -/
def mkRecord (body : List (String × JVal)) (newId now : Nat) : Record :=
  ⟨newId, (jget body "type").getD JVal.null, (jget body "geojson").getD JVal.null,
   asNum (jget body "value"), (jget body "unit").getD JVal.null, now⟩

def postMeasurement (body : List (String × JVal)) (st : StoreSt)
    (newId now : Nat) : Response × StoreSt :=
  if invalidPayload body then
    (Response.jsonVal 400 (JVal.obj [("error", JVal.str "Invalid payload")]), st)
  else
    match st with
    | Except.error e => (Response.noResponse, Except.error e)
    | Except.ok s =>
        if typeEnumOk (jget body "type") then
          let r : Record := mkRecord body newId now
          (Response.created 201 r, Except.ok (s ++ [r]))
        else
          (Response.noResponse, Except.ok s)

/-- `Measurement.findOne().sort({ createdAt: -1 })`: the record with maximal
`createdAt`, ties broken by insertion order (earliest kept first). -/
def findLatest : List Record → Option Record
  | [] => none
  | r :: rs =>
      match findLatest rs with
      | none => some r
      | some m => if m.createdAt > r.createdAt then some m else some r

/-- `Measurement.findByIdAndDelete(id)`: remove the first record with the
given id. -/
def deleteById (i : Nat) : List Record → List Record
  | [] => []
  | r :: rs => if r.id == i then rs else r :: deleteById i rs

/-- `DELETE /api/measurements/latest`: find the most recent record, 404 when
none, otherwise delete it by id and answer `{deletedCount: 1}`.  With an
unreachable store the awaited find rejects unhandled. -/
def deleteLatest (st : StoreSt) : Response × StoreSt :=
  match st with
  | Except.error e => (Response.noResponse, Except.error e)
  | Except.ok s =>
      match findLatest s with
      | none =>
          (Response.jsonVal 404
            (JVal.obj [("error", JVal.str "No measurements to delete")]),
           Except.ok s)
      | some latest =>
          (Response.jsonVal 200 (JVal.obj [("deletedCount", JVal.num 1)]),
           Except.ok (deleteById latest.id s))

/-- The routes server.js registers, in registration order. -/
def matchesRoute (req : Request) : Bool :=
  (req.method == "GET" && req.path == "/api/health") ||
  (req.method == "GET" && req.path == "/") ||
  (req.method == "GET" && req.path == "/api/measurements") ||
  (req.method == "POST" && req.path == "/api/measurements") ||
  (req.method == "DELETE" && req.path == "/api/measurements/latest")

/-- The whole server: route dispatch in registration order, ending in the
catch-all 404 middleware.  The health route is registered before every
middleware and never touches the store. -/
def handleRequest (req : Request) (body : List (String × JVal)) (st : StoreSt)
    (newId now : Nat) : Response × StoreSt :=
  if req.method == "GET" && req.path == "/api/health" then
    (Response.jsonVal 200 (JVal.obj [("ok", JVal.bool true)]), st)
  else if req.method == "GET" && req.path == "/" then
    (Response.text 200 "API is running. Try /api/health or /api/measurements", st)
  else if req.method == "GET" && req.path == "/api/measurements" then
    getMeasurements st
  else if req.method == "POST" && req.path == "/api/measurements" then
    postMeasurement body st newId now
  else if req.method == "DELETE" && req.path == "/api/measurements/latest" then
    deleteLatest st
  else
    (Response.jsonVal 404 (JVal.obj [("error", JVal.str "Not found")]), st)

/-! ### Client: `finishDrawing` geometry conversion (src/unnamed/part_000) -/

/-- An OpenLayers geometry as `finishDrawing` sees it: a line's coordinate
list, a polygon's ring list, or some other geometry kind (skipped).
Coordinates are pairs of rationals. -/
inductive OLGeom where
  | lineString (coords : List (ℚ × ℚ)) : OLGeom
  | polygon (rings : List (List (ℚ × ℚ))) : OLGeom
  | otherGeom : OLGeom

/-- `clone.transform('EPSG:3857', 'EPSG:4326')`: apply the coordinate
transform `tf` to every coordinate. -/
def transformGeom (tf : ℚ × ℚ → ℚ × ℚ) : OLGeom → OLGeom
  | OLGeom.lineString cs => OLGeom.lineString (cs.map tf)
  | OLGeom.polygon rs => OLGeom.polygon (rs.map (fun ring => ring.map tf))
  | OLGeom.otherGeom => OLGeom.otherGeom

/-- The `coordinates` member of the produced GeoJSON geometry: a flat
coordinate list for a line, a ring list for a polygon. -/
inductive CoordsVal where
  | line (cs : List (ℚ × ℚ)) : CoordsVal
  | rings (rs : List (List (ℚ × ℚ))) : CoordsVal

/-- The GeoJSON Feature built by `finishDrawing`:
`{type: 'Feature', geometry: {type, coordinates}}`. -/
structure GeoFeature where
  featureType : String
  geometryType : String
  coordinates : CoordsVal

/-- One POST payload `{type, geojson, value, unit}` built by
`finishDrawing`. -/
structure GeoPayload where
  ptype : String
  geojson : GeoFeature
  value : ℚ
  unit : String

/-- The body of `finishDrawing`'s conversion loop for one feature.  `tf` is
the EPSG:3857 → EPSG:4326 transform; `sphLen` and `sphArea` are
`ol/sphere.getLength` / `getArea` with `{projection: 'EPSG:4326'}`, applied
to the reprojected geometry.  `none` models `continue` (missing geometry or a
kind other than LineString/Polygon). -/
def convertFeature (tf : ℚ × ℚ → ℚ × ℚ) (sphLen sphArea : OLGeom → ℚ) :
    Option OLGeom → Option GeoPayload
  | none => none
  | some g =>
      match g with
      | OLGeom.lineString cs =>
          let clone := transformGeom tf (OLGeom.lineString cs)
          some ⟨"LineString",
                ⟨"Feature", "LineString", CoordsVal.line (cs.map tf)⟩,
                sphLen clone, "m"⟩
      | OLGeom.polygon rs =>
          let clone := transformGeom tf (OLGeom.polygon rs)
          let coords := (rs.map (fun ring => ring.map tf)).headD []
          some ⟨"Polygon",
                ⟨"Feature", "Polygon", CoordsVal.rings [coords]⟩,
                sphArea clone, "m²"⟩
      | OLGeom.otherGeom => none

/-! ### Client: `finishDrawing` batch submission callbacks -/

/-- Outcome of one POST in the batch: the subscription's `next` or `error`
callback fires. -/
inductive CbEvent where
  | ok : CbEvent
  | err : CbEvent
deriving DecidableEq

/-- The client state the batch callbacks close over: the `done` counter, the
`failed` flag, the saved and pending vector sources (features modelled by
ids), and the status message. -/
structure BatchState where
  done : Nat
  failed : Bool
  saved : List Nat
  pending : List Nat
  lastInfo : String

/-- One callback firing, closing over the snapshot `features` of the pending
source and the batch size `total`.  On `next`: increment `done`; when every
POST has succeeded, promote all features to the saved layer, clear pending
and report success.  On `error`: set `failed` and report failure. -/
def stepCallback (features : List Nat) (total : Nat) (st : BatchState) :
    CbEvent → BatchState
  | CbEvent.ok =>
      let done' := st.done + 1
      if !st.failed && done' == total then
        { st with done := done', saved := st.saved ++ features, pending := [],
                  lastInfo := "✅Your data are saved and are available." }
      else
        { st with done := done' }
  | CbEvent.err =>
      { st with failed := true,
                lastInfo := "❌Failed to save. Is the server running?" }

/-- Run the batch: the POST callbacks fire in some arrival order `events`. -/
def runBatch (features : List Nat) (total : Nat) (st : BatchState)
    (events : List CbEvent) : BatchState :=
  events.foldl (stepCallback features total) st

/-- Number of successful POSTs among the events. -/
def countOk (events : List CbEvent) : Nat :=
  (events.filter (fun e => e == CbEvent.ok)).length

/-! ### Route-dispatch helper lemmas -/

theorem handle_list_eq (body : List (String × JVal)) (st : StoreSt)
    (newId now : Nat) :
    handleRequest ⟨"GET", "/api/measurements"⟩ body st newId now =
      getMeasurements st := rfl

theorem handle_post_eq (body : List (String × JVal)) (st : StoreSt)
    (newId now : Nat) :
    handleRequest ⟨"POST", "/api/measurements"⟩ body st newId now =
      postMeasurement body st newId now := rfl

theorem handle_delete_latest_eq (body : List (String × JVal)) (st : StoreSt)
    (newId now : Nat) :
    handleRequest ⟨"DELETE", "/api/measurements/latest"⟩ body st newId now =
      deleteLatest st := rfl

/-! ### Claim theorems -/

/-- C7: `GET /api/health` always answers 200 with body `ok: true`, for every
store state — reachable or not — and its response never depends on the
store. -/
theorem health_always_ok :
    ∀ (body : List (String × JVal)) (st : StoreSt) (newId now : Nat),
      handleRequest ⟨"GET", "/api/health"⟩ body st newId now =
        (Response.jsonVal 200 (JVal.obj [("ok", JVal.bool true)]), st) ∧
      ∀ st2 : StoreSt,
        (handleRequest ⟨"GET", "/api/health"⟩ body st newId now).1 =
        (handleRequest ⟨"GET", "/api/health"⟩ body st2 newId now).1 := by
  intro body st newId now
  exact ⟨rfl, fun st2 => rfl⟩

/-- C3: `DELETE /api/measurements/latest` on the empty store answers 404 with
an error body, leaves the store unchanged, and sends no 200 body (in
particular no `deletedCount: 1`). -/
theorem delete_latest_empty_store_404 :
    ∀ (body : List (String × JVal)) (newId now : Nat),
      handleRequest ⟨"DELETE", "/api/measurements/latest"⟩ body
          (Except.ok []) newId now =
        (Response.jsonVal 404
           (JVal.obj [("error", JVal.str "No measurements to delete")]),
         Except.ok []) ∧
      ∀ b : JVal,
        (handleRequest ⟨"DELETE", "/api/measurements/latest"⟩ body
            (Except.ok []) newId now).1 ≠ Response.jsonVal 200 b := by
  intro body newId now
  refine ⟨rfl, fun b h => ?_⟩
  rw [handle_delete_latest_eq] at h
  simp [deleteLatest, findLatest] at h

/-- C4: `GET /api/measurements` either answers 200 with exactly the whole
store ordered by `createdAt` descending, or — when the store operation
fails — answers 503 with `Database unavailable` and the underlying detail;
it never returns a partial result. -/
theorem list_all_sorted_or_503 :
    ∀ (body : List (String × JVal)) (newId now : Nat),
      (∀ s : List Record, ∃ l,
        handleRequest ⟨"GET", "/api/measurements"⟩ body (Except.ok s)
            newId now = (Response.jsonList 200 l, Except.ok s) ∧
        List.Perm l s ∧ List.Sorted byCreatedAtDesc l) ∧
      (∀ e : String,
        handleRequest ⟨"GET", "/api/measurements"⟩ body (Except.error e)
            newId now =
          (Response.jsonVal 503
             (JVal.obj [("error", JVal.str "Database unavailable"),
                        ("details", JVal.str e)]),
           Except.error e)) := by
  intro body newId now
  constructor
  · intro s
    exact ⟨List.insertionSort byCreatedAtDesc s, rfl,
           List.perm_insertionSort byCreatedAtDesc s,
           List.sorted_insertionSort byCreatedAtDesc s⟩
  · intro e
    rfl

/-- C9: a request matching none of the registered routes falls through to the
catch-all middleware and receives 404 `Not found` with the store untouched;
in particular `DELETE /api/measurements` (no bulk-delete route exists)
receives that 404. -/
theorem unmatched_routes_404 :
    (∀ (req : Request) (body : List (String × JVal)) (st : StoreSt)
       (newId now : Nat),
       matchesRoute req = false →
       handleRequest req body st newId now =
         (Response.jsonVal 404 (JVal.obj [("error", JVal.str "Not found")]),
          st)) ∧
    (∀ (body : List (String × JVal)) (st : StoreSt) (newId now : Nat),
       handleRequest ⟨"DELETE", "/api/measurements"⟩ body st newId now =
         (Response.jsonVal 404 (JVal.obj [("error", JVal.str "Not found")]),
          st)) := by
  constructor
  · intro req body st newId now h
    rw [matchesRoute] at h
    unfold handleRequest
    repeat' split
    all_goals first
      | rfl
      | (rename_i hg; simp_all)
  · intro body st newId now
    rfl

theorem unmatched_routes_404_witness :
    handleRequest ⟨"PUT", "/api/measurements"⟩ [] (Except.ok []) 0 0 =
      (Response.jsonVal 404 (JVal.obj [("error", JVal.str "Not found")]),
       Except.ok []) :=
  unmatched_routes_404.1 ⟨"PUT", "/api/measurements"⟩ [] (Except.ok []) 0 0 rfl

/-- C10: the POST validation uses truthiness for `type`, `geojson`, `unit`
but only a type check for `value`: a payload with `value = 0` is accepted
(201), while payloads whose `type` or `unit` is the empty string — present
but falsy — are rejected with 400. -/
theorem post_truthiness_vs_value_typecheck :
    handleRequest ⟨"POST", "/api/measurements"⟩
        [("type", JVal.str "LineString"), ("geojson", JVal.obj []),
         ("value", JVal.num 0), ("unit", JVal.str "m")]
        (Except.ok []) 1 2 =
      (Response.created 201
         ⟨1, JVal.str "LineString", JVal.obj [], 0, JVal.str "m", 2⟩,
       Except.ok
         [⟨1, JVal.str "LineString", JVal.obj [], 0, JVal.str "m", 2⟩]) ∧
    jget [("type", JVal.str ""), ("geojson", JVal.obj []),
          ("value", JVal.num 2), ("unit", JVal.str "m")] "type" =
      some (JVal.str "") ∧
    (handleRequest ⟨"POST", "/api/measurements"⟩
        [("type", JVal.str ""), ("geojson", JVal.obj []),
         ("value", JVal.num 2), ("unit", JVal.str "m")]
        (Except.ok []) 1 2).1 =
      Response.jsonVal 400 (JVal.obj [("error", JVal.str "Invalid payload")]) ∧
    jget [("type", JVal.str "LineString"), ("geojson", JVal.obj []),
          ("value", JVal.num 2), ("unit", JVal.str "")] "unit" =
      some (JVal.str "") ∧
    (handleRequest ⟨"POST", "/api/measurements"⟩
        [("type", JVal.str "LineString"), ("geojson", JVal.obj []),
         ("value", JVal.num 2), ("unit", JVal.str "")]
        (Except.ok []) 1 2).1 =
      Response.jsonVal 400 (JVal.obj [("error", JVal.str "Invalid payload")]) :=
  ⟨rfl, rfl, rfl, rfl, rfl⟩

/-- C1 counterexample: a payload with all four fields present and a numeric
`value` — `type` is the empty string — is rejected with 400, whereas the
claim requires 201 for every payload in which nothing is missing and `value`
is a number. -/
theorem post_rejects_present_empty_type :
    jget [("type", JVal.str ""), ("geojson", JVal.obj []),
          ("value", JVal.num 1), ("unit", JVal.str "m")] "type" =
      some (JVal.str "") ∧
    jget [("type", JVal.str ""), ("geojson", JVal.obj []),
          ("value", JVal.num 1), ("unit", JVal.str "m")] "geojson" =
      some (JVal.obj []) ∧
    isNumber (jget [("type", JVal.str ""), ("geojson", JVal.obj []),
          ("value", JVal.num 1), ("unit", JVal.str "m")] "value") = true ∧
    jget [("type", JVal.str ""), ("geojson", JVal.obj []),
          ("value", JVal.num 1), ("unit", JVal.str "m")] "unit" =
      some (JVal.str "m") ∧
    handleRequest ⟨"POST", "/api/measurements"⟩
        [("type", JVal.str ""), ("geojson", JVal.obj []),
         ("value", JVal.num 1), ("unit", JVal.str "m")]
        (Except.ok []) 1 2 =
      (Response.jsonVal 400 (JVal.obj [("error", JVal.str "Invalid payload")]),
       Except.ok []) :=
  ⟨rfl, rfl, rfl, rfl, rfl⟩

/-- C1 (amended): POST answers 400 exactly when `type`, `geojson` or `unit`
is missing or falsy, or `value` is not a number; a request passing that
check whose `type` is one of the schema enum strings and whose `unit` is a
non-empty string is inserted and returned with 201 — `type`, `geojson`,
`value`, `unit` as submitted, id and timestamp server-assigned; a passing
request whose `type` fails the schema enum gets no success response (the
create rejection is unhandled). -/
theorem post_validation_and_insertion :
    (∀ (body : List (String × JVal)) (st : StoreSt) (newId now : Nat),
      ((handleRequest ⟨"POST", "/api/measurements"⟩ body st newId now).1 =
          Response.jsonVal 400
            (JVal.obj [("error", JVal.str "Invalid payload")]) ↔
        (truthy (jget body "type") = false ∨
         truthy (jget body "geojson") = false ∨
         isNumber (jget body "value") = false ∨
         truthy (jget body "unit") = false))) ∧
    (∀ (body : List (String × JVal)) (s : List Record) (newId now : Nat)
       (tstr ustr : String) (gj : JVal) (vq : ℚ),
      jget body "type" = some (JVal.str tstr) →
      (tstr = "LineString" ∨ tstr = "Polygon") →
      jget body "geojson" = some gj →
      truthy (some gj) = true →
      jget body "value" = some (JVal.num vq) →
      jget body "unit" = some (JVal.str ustr) →
      ustr ≠ "" →
      handleRequest ⟨"POST", "/api/measurements"⟩ body (Except.ok s)
          newId now =
        (Response.created 201
           ⟨newId, JVal.str tstr, gj, vq, JVal.str ustr, now⟩,
         Except.ok (s ++ [⟨newId, JVal.str tstr, gj, vq, JVal.str ustr, now⟩]))) ∧
    (∀ (body : List (String × JVal)) (s : List Record) (newId now : Nat),
      invalidPayload body = false →
      typeEnumOk (jget body "type") = false →
      (handleRequest ⟨"POST", "/api/measurements"⟩ body (Except.ok s)
          newId now).1 = Response.noResponse) := by
  refine ⟨?_, ?_, ?_⟩
  · intro body st newId now
    rw [handle_post_eq]
    unfold postMeasurement
    cases hb : invalidPayload body with
    | true =>
        have hd := hb
        simp only [invalidPayload, Bool.or_eq_true, Bool.not_eq_true'] at hd
        simpa [or_assoc] using hd
    | false =>
        have hd := hb
        simp only [invalidPayload, Bool.or_eq_false_iff] at hd
        obtain ⟨⟨⟨hd1, hd2⟩, hd3⟩, hd4⟩ := hd
        simp only [Bool.not_eq_false_eq_eq_true] at hd1 hd2 hd3 hd4
        cases st with
        | error e => simp [hd1, hd2, hd3, hd4]
        | ok s =>
            cases he : typeEnumOk (jget body "type") <;>
              simp [hd1, hd2, hd3, hd4, he]
  · intro body s newId now tstr ustr gj vq ht henum hg htg hv hu hune
    have htne : tstr ≠ "" := by
      rcases henum with h | h <;> subst h <;> decide
    have ht1 : truthy (some (JVal.str tstr)) = true := by
      simp [truthy, htne]
    have hu1 : truthy (some (JVal.str ustr)) = true := by
      simp [truthy, hune]
    have hip : invalidPayload body = false := by
      simp [invalidPayload, ht, hg, hv, hu, ht1, hu1, htg, isNumber]
    have hen : typeEnumOk (jget body "type") = true := by
      rw [ht]
      rcases henum with h | h <;> subst h <;> decide
    rw [handle_post_eq]
    unfold postMeasurement
    rw [hip]
    simp only [Bool.false_eq_true, if_false, hen, if_true]
    unfold mkRecord
    rw [ht, hg, hv, hu]
    rfl
  · intro body s newId now hip hen
    rw [handle_post_eq]
    unfold postMeasurement
    rw [hip, hen]
    simp

theorem post_validation_and_insertion_witness :
    ((handleRequest ⟨"POST", "/api/measurements"⟩ [] (Except.ok []) 0 0).1 =
        Response.jsonVal 400
          (JVal.obj [("error", JVal.str "Invalid payload")]) ↔
      (truthy (jget [] "type") = false ∨
       truthy (jget [] "geojson") = false ∨
       isNumber (jget [] "value") = false ∨
       truthy (jget [] "unit") = false)) ∧
    handleRequest ⟨"POST", "/api/measurements"⟩
        [("type", JVal.str "Polygon"), ("geojson", JVal.obj []),
         ("value", JVal.num 7), ("unit", JVal.str "m²")]
        (Except.ok []) 4 9 =
      (Response.created 201
         ⟨4, JVal.str "Polygon", JVal.obj [], 7, JVal.str "m²", 9⟩,
       Except.ok [⟨4, JVal.str "Polygon", JVal.obj [], 7, JVal.str "m²", 9⟩]) ∧
    (handleRequest ⟨"POST", "/api/measurements"⟩
        [("type", JVal.str "Point"), ("geojson", JVal.obj []),
         ("value", JVal.num 7), ("unit", JVal.str "m")]
        (Except.ok []) 4 9).1 = Response.noResponse :=
  ⟨post_validation_and_insertion.1 [] (Except.ok []) 0 0,
   post_validation_and_insertion.2.1
     [("type", JVal.str "Polygon"), ("geojson", JVal.obj []),
      ("value", JVal.num 7), ("unit", JVal.str "m²")]
     [] 4 9 "Polygon" "m²" (JVal.obj []) 7 rfl (Or.inr rfl) rfl rfl rfl rfl
     (by decide),
   post_validation_and_insertion.2.2
     [("type", JVal.str "Point"), ("geojson", JVal.obj []),
      ("value", JVal.num 7), ("unit", JVal.str "m")]
     [] 4 9 rfl rfl⟩

/-- C8 counterexample: a payload with `value = -3` passes validation and is
persisted: the store gains a record whose `value` is negative, so creates do
not preserve the claimed non-negativity invariant. -/
theorem post_accepts_negative_value :
    handleRequest ⟨"POST", "/api/measurements"⟩
        [("type", JVal.str "LineString"), ("geojson", JVal.obj []),
         ("value", JVal.num (-3)), ("unit", JVal.str "m")]
        (Except.ok []) 1 2 =
      (Response.created 201
         ⟨1, JVal.str "LineString", JVal.obj [], -3, JVal.str "m", 2⟩,
       Except.ok [⟨1, JVal.str "LineString", JVal.obj [], -3, JVal.str "m", 2⟩]) ∧
    (-3 : ℚ) < 0 :=
  ⟨rfl, by norm_num⟩

/-- C8 (amended): the server persists the submitted numeric `value`
unchanged — any rational, negative values included; non-negativity of
stored values is not enforced by the create operation. -/
theorem post_persists_any_numeric_value :
    ∀ (v : ℚ) (s : List Record) (newId now : Nat),
      handleRequest ⟨"POST", "/api/measurements"⟩
          [("type", JVal.str "LineString"), ("geojson", JVal.obj []),
           ("value", JVal.num v), ("unit", JVal.str "m")]
          (Except.ok s) newId now =
        (Response.created 201
           ⟨newId, JVal.str "LineString", JVal.obj [], v, JVal.str "m", now⟩,
         Except.ok
           (s ++ [⟨newId, JVal.str "LineString", JVal.obj [], v,
                   JVal.str "m", now⟩])) := by
  intro v s newId now
  rfl

/-! ### Lemmas about `findLatest` and `deleteById` -/

theorem findLatest_cons (a : Record) (rs : List Record) :
    findLatest (a :: rs) =
      (match findLatest rs with
       | none => some a
       | some m => if m.createdAt > a.createdAt then some m else some a) := rfl

theorem findLatest_cons_none {a : Record} {rs : List Record}
    (h : findLatest rs = none) : findLatest (a :: rs) = some a := by
  rw [findLatest_cons, h]

theorem findLatest_cons_some {a m : Record} {rs : List Record}
    (h : findLatest rs = some m) :
    findLatest (a :: rs) =
      (if m.createdAt > a.createdAt then some m else some a) := by
  rw [findLatest_cons, h]

theorem findLatest_eq_none {s : List Record} (h : findLatest s = none) :
    s = [] := by
  cases s with
  | nil => rfl
  | cons r rs =>
      cases hf : findLatest rs with
      | none => rw [findLatest_cons_none hf] at h; exact absurd h (by simp)
      | some m =>
          rw [findLatest_cons_some hf] at h
          by_cases hc : m.createdAt > r.createdAt <;> simp [hc] at h

theorem findLatest_mem :
    ∀ {s : List Record} {r : Record}, findLatest s = some r → r ∈ s := by
  intro s
  induction s with
  | nil => intro r h; exact absurd h (by simp [findLatest])
  | cons a rs ih =>
      intro r h
      cases hf : findLatest rs with
      | none =>
          rw [findLatest_cons_none hf, Option.some_inj] at h
          exact h ▸ List.mem_cons_self a rs
      | some m =>
          rw [findLatest_cons_some hf] at h
          by_cases hc : m.createdAt > a.createdAt
          · rw [if_pos hc, Option.some_inj] at h
            exact h ▸ List.mem_cons_of_mem a (ih hf)
          · rw [if_neg hc, Option.some_inj] at h
            exact h ▸ List.mem_cons_self a rs

theorem findLatest_max :
    ∀ {s : List Record} {r : Record}, findLatest s = some r →
      ∀ x ∈ s, x.createdAt ≤ r.createdAt := by
  intro s
  induction s with
  | nil => intro r h; exact absurd h (by simp [findLatest])
  | cons a rs ih =>
      intro r h x hx
      cases hf : findLatest rs with
      | none =>
          have hrs : rs = [] := findLatest_eq_none hf
          subst hrs
          rw [findLatest_cons_none hf, Option.some_inj] at h
          have hxa := List.mem_singleton.mp hx
          subst hxa
          exact h ▸ Nat.le_refl _
      | some m =>
          rw [findLatest_cons_some hf] at h
          by_cases hc : m.createdAt > a.createdAt
          · rw [if_pos hc, Option.some_inj] at h
            subst h
            rcases List.mem_cons.mp hx with hxa | hxr
            · exact hxa ▸ Nat.le_of_lt hc
            · exact ih hf x hxr
          · rw [if_neg hc, Option.some_inj] at h
            subst h
            rcases List.mem_cons.mp hx with hxa | hxr
            · exact hxa ▸ Nat.le_refl _
            · exact Nat.le_trans (ih hf x hxr) (Nat.le_of_not_lt hc)

theorem findLatest_isSome {s : List Record} (h : s ≠ []) :
    ∃ r, findLatest s = some r := by
  cases hf : findLatest s with
  | none => exact absurd (findLatest_eq_none hf) h
  | some r => exact ⟨r, rfl⟩

theorem deleteLatest_ok (s : List Record) :
    deleteLatest (Except.ok s) =
      (match findLatest s with
       | none =>
           (Response.jsonVal 404
              (JVal.obj [("error", JVal.str "No measurements to delete")]),
            Except.ok s)
       | some latest =>
           (Response.jsonVal 200 (JVal.obj [("deletedCount", JVal.num 1)]),
            Except.ok (deleteById latest.id s))) := rfl

/-- With pairwise-distinct ids (Mongo guarantees `_id` uniqueness),
`findByIdAndDelete latest._id` removes exactly the found record. -/
theorem deleteById_split :
    ∀ {s : List Record}, (s.map Record.id).Nodup →
      ∀ {r : Record}, r ∈ s →
        ∃ pre post, s = pre ++ r :: post ∧ deleteById r.id s = pre ++ post := by
  intro s
  induction s with
  | nil => intro _ r h; exact absurd h (List.not_mem_nil r)
  | cons a rs ih =>
      intro hnd r hr
      rw [List.map_cons, List.nodup_cons] at hnd
      rcases List.mem_cons.mp hr with hra | hrr
      · subst hra
        refine ⟨[], rs, rfl, ?_⟩
        unfold deleteById
        rw [beq_self_eq_true]
        rfl
      · have hane : a.id ≠ r.id := by
          intro he
          exact hnd.1 (he ▸ List.mem_map_of_mem Record.id hrr)
        obtain ⟨pre, post, hsplit, hdel⟩ := ih hnd.2 hrr
        refine ⟨a :: pre, post, by rw [List.cons_append, hsplit], ?_⟩
        unfold deleteById
        rw [beq_eq_false_iff_ne.mpr hane, hdel]
        rfl

/-- C2: on a non-empty store with distinct ids, `DELETE
/api/measurements/latest` removes exactly one record — one of maximal
`createdAt` — and answers `deletedCount: 1`; and in the A-then-B scenario
(B created later) it removes B, after which listing returns only A. -/
theorem delete_latest_removes_most_recent :
    (∀ (s : List Record), s ≠ [] → (s.map Record.id).Nodup →
      ∀ (body : List (String × JVal)) (newId now : Nat),
        ∃ r pre post,
          findLatest s = some r ∧ s = pre ++ r :: post ∧
          (∀ x ∈ s, x.createdAt ≤ r.createdAt) ∧
          handleRequest ⟨"DELETE", "/api/measurements/latest"⟩ body
              (Except.ok s) newId now =
            (Response.jsonVal 200 (JVal.obj [("deletedCount", JVal.num 1)]),
             Except.ok (pre ++ post))) ∧
    (∀ (A B : Record) (body : List (String × JVal)) (newId now : Nat),
      A.createdAt < B.createdAt → A.id ≠ B.id →
      handleRequest ⟨"DELETE", "/api/measurements/latest"⟩ body
          (Except.ok [A, B]) newId now =
        (Response.jsonVal 200 (JVal.obj [("deletedCount", JVal.num 1)]),
         Except.ok [A]) ∧
      handleRequest ⟨"GET", "/api/measurements"⟩ body (Except.ok [A])
          newId now = (Response.jsonList 200 [A], Except.ok [A])) := by
  constructor
  · intro s hne hnd body newId now
    obtain ⟨r, hf⟩ := findLatest_isSome hne
    obtain ⟨pre, post, hsplit, hdel⟩ := deleteById_split hnd (findLatest_mem hf)
    refine ⟨r, pre, post, hf, hsplit, findLatest_max hf, ?_⟩
    rw [handle_delete_latest_eq, deleteLatest_ok, hf]
    dsimp only
    rw [hdel]
  · intro A B body newId now hAB hid
    constructor
    · have hf : findLatest [A, B] = some B := by
        have h0 : findLatest [A, B] =
            (if B.createdAt > A.createdAt then some B else some A) := rfl
        rw [h0, if_pos hAB]
      have hd : deleteById B.id [A, B] = [A] := by
        unfold deleteById
        rw [beq_eq_false_iff_ne.mpr hid]
        unfold deleteById
        rw [beq_self_eq_true]
        rfl
      rw [handle_delete_latest_eq, deleteLatest_ok, hf]
      dsimp only
      rw [hd]
    · rw [handle_list_eq]
      rfl

theorem delete_latest_removes_most_recent_witness :
    (∃ r pre post,
      findLatest [(⟨0, JVal.null, JVal.null, 0, JVal.null, 1⟩ : Record),
                  ⟨1, JVal.null, JVal.null, 0, JVal.null, 2⟩] = some r ∧
      [(⟨0, JVal.null, JVal.null, 0, JVal.null, 1⟩ : Record),
       ⟨1, JVal.null, JVal.null, 0, JVal.null, 2⟩] = pre ++ r :: post ∧
      (∀ x ∈ [(⟨0, JVal.null, JVal.null, 0, JVal.null, 1⟩ : Record),
              ⟨1, JVal.null, JVal.null, 0, JVal.null, 2⟩],
        x.createdAt ≤ r.createdAt) ∧
      handleRequest ⟨"DELETE", "/api/measurements/latest"⟩ []
          (Except.ok [⟨0, JVal.null, JVal.null, 0, JVal.null, 1⟩,
                      ⟨1, JVal.null, JVal.null, 0, JVal.null, 2⟩]) 0 0 =
        (Response.jsonVal 200 (JVal.obj [("deletedCount", JVal.num 1)]),
         Except.ok (pre ++ post))) ∧
    (handleRequest ⟨"DELETE", "/api/measurements/latest"⟩ []
        (Except.ok [⟨0, JVal.null, JVal.null, 0, JVal.null, 1⟩,
                    ⟨1, JVal.null, JVal.null, 0, JVal.null, 2⟩]) 0 0 =
      (Response.jsonVal 200 (JVal.obj [("deletedCount", JVal.num 1)]),
       Except.ok [⟨0, JVal.null, JVal.null, 0, JVal.null, 1⟩]) ∧
     handleRequest ⟨"GET", "/api/measurements"⟩ []
        (Except.ok [⟨0, JVal.null, JVal.null, 0, JVal.null, 1⟩]) 0 0 =
      (Response.jsonList 200 [⟨0, JVal.null, JVal.null, 0, JVal.null, 1⟩],
       Except.ok [⟨0, JVal.null, JVal.null, 0, JVal.null, 1⟩])) :=
  ⟨delete_latest_removes_most_recent.1
     [⟨0, JVal.null, JVal.null, 0, JVal.null, 1⟩,
      ⟨1, JVal.null, JVal.null, 0, JVal.null, 2⟩]
     (by simp) (by simp) [] 0 0,
   delete_latest_removes_most_recent.2
     ⟨0, JVal.null, JVal.null, 0, JVal.null, 1⟩
     ⟨1, JVal.null, JVal.null, 0, JVal.null, 2⟩
     [] 0 0 (by decide) (by decide)⟩

/-! ### Lemmas about the batch-submission fold -/

theorem runBatch_cons (fs : List Nat) (total : Nat) (st : BatchState)
    (e : CbEvent) (es : List CbEvent) :
    runBatch fs total st (e :: es) =
      runBatch fs total (stepCallback fs total st e) es := rfl

theorem countOk_cons_ok (es : List CbEvent) :
    countOk (CbEvent.ok :: es) = countOk es + 1 := by
  simp [countOk, List.filter_cons]

theorem countOk_cons_err (es : List CbEvent) :
    countOk (CbEvent.err :: es) = countOk es := by
  simp [countOk, List.filter_cons]

theorem stepCallback_ok (fs : List Nat) (total : Nat) (st : BatchState) :
    stepCallback fs total st CbEvent.ok =
      (if !st.failed && (st.done + 1 == total) then
        { st with done := st.done + 1, saved := st.saved ++ fs,
                  pending := [],
                  lastInfo := "✅Your data are saved and are available." }
      else { st with done := st.done + 1 }) := rfl

theorem stepCallback_err (fs : List Nat) (total : Nat) (st : BatchState) :
    stepCallback fs total st CbEvent.err =
      { st with failed := true,
                lastInfo := "❌Failed to save. Is the server running?" } := rfl

theorem countOk_lt_length {es : List CbEvent} (h : CbEvent.err ∈ es) :
    countOk es < es.length := by
  induction es with
  | nil => cases h
  | cons e es ih =>
      cases e with
      | ok =>
          have h2 : CbEvent.err ∈ es := by simpa using h
          have h3 := ih h2
          rw [countOk_cons_ok]
          simp only [List.length_cons]
          omega
      | err =>
          have h3 := List.length_filter_le (fun e => e == CbEvent.ok) es
          rw [countOk_cons_err]
          simp only [List.length_cons]
          have h4 : countOk es ≤ es.length := h3
          omega

/-- While fewer than `total` successes have arrived, the batch callbacks
never promote: `saved` and `pending` are untouched, `done` counts the
successes, `failed` records whether an error arrived, and the status message
is the failure message exactly when an error arrived. -/
theorem runBatch_no_promotion :
    ∀ (events : List CbEvent) (fs : List Nat) (total : Nat) (st : BatchState),
      st.done + countOk events < total →
      (runBatch fs total st events).saved = st.saved ∧
      (runBatch fs total st events).pending = st.pending ∧
      (runBatch fs total st events).done = st.done + countOk events ∧
      (runBatch fs total st events).failed =
        (st.failed || decide (CbEvent.err ∈ events)) ∧
      (runBatch fs total st events).lastInfo =
        (if CbEvent.err ∈ events then
           "❌Failed to save. Is the server running?"
         else st.lastInfo) := by
  intro events
  induction events with
  | nil =>
      intro fs total st h
      simp [runBatch, countOk]
  | cons e es ih =>
      intro fs total st h
      cases e with
      | ok =>
          rw [countOk_cons_ok] at h
          have hne : (st.done + 1 == total) = false := by
            have hlt : st.done + 1 < total := by omega
            simp [Nat.ne_of_lt hlt]
          have hstep : stepCallback fs total st CbEvent.ok =
              { st with done := st.done + 1 } := by
            rw [stepCallback_ok, hne]
            simp
          have h2 : ({ st with done := st.done + 1 } : BatchState).done +
              countOk es < total := by
            simp only
            omega
          obtain ⟨i1, i2, i3, i4, i5⟩ :=
            ih fs total { st with done := st.done + 1 } h2
          rw [runBatch_cons, hstep]
          refine ⟨i1, i2, ?_, ?_, ?_⟩
          · rw [i3]
            simp only [countOk_cons_ok]
            omega
          · rw [i4]
            simp
          · rw [i5]
            simp
      | err =>
          rw [countOk_cons_err] at h
          have h2 : ({ st with
                        failed := true,
                        lastInfo := "❌Failed to save. Is the server running?" } :
              BatchState).done + countOk es < total := by
            simp only
            omega
          obtain ⟨i1, i2, i3, i4, i5⟩ :=
            ih fs total
              { st with
                  failed := true,
                  lastInfo := "❌Failed to save. Is the server running?" } h2
          rw [runBatch_cons, stepCallback_err]
          refine ⟨i1, i2, ?_, ?_, ?_⟩
          · rw [i3]
            simp only [countOk_cons_err]
          · rw [i4]
            simp
          · rw [i5]
            simp

/-- C5 counterexample: a batch of 3 shapes whose 2nd POST fails (the other
two succeed): the final status is the failure message, but the saved layer
gains nothing — 0 shapes, not 2 — and all 3 shapes stay pending. -/
theorem finishBatch_second_failure_counterexample :
    (runBatch [1, 2, 3] 3 ⟨0, false, [], [1, 2, 3], "start"⟩
        [CbEvent.ok, CbEvent.err, CbEvent.ok]).lastInfo =
      "❌Failed to save. Is the server running?" ∧
    (runBatch [1, 2, 3] 3 ⟨0, false, [], [1, 2, 3], "start"⟩
        [CbEvent.ok, CbEvent.err, CbEvent.ok]).saved = [] ∧
    (runBatch [1, 2, 3] 3 ⟨0, false, [], [1, 2, 3], "start"⟩
        [CbEvent.ok, CbEvent.err, CbEvent.ok]).saved.length ≠ 2 ∧
    (runBatch [1, 2, 3] 3 ⟨0, false, [], [1, 2, 3], "start"⟩
        [CbEvent.ok, CbEvent.err, CbEvent.ok]).pending = [1, 2, 3] :=
  ⟨rfl, rfl, by decide, rfl⟩

/-- C5 (amended): when any create call of the batch fails, the final status
indicates failure and no shape is promoted: the saved layer is unchanged
(0 of the drawn shapes end up saved) and every drawn shape stays pending —
even though the successful create calls have committed records
server-side. -/
theorem finishBatch_failure_promotes_nothing :
    ∀ (fs saved0 : List Nat) (info0 : String) (events : List CbEvent),
      events.length = fs.length →
      CbEvent.err ∈ events →
      (runBatch fs fs.length ⟨0, false, saved0, fs, info0⟩ events).saved =
        saved0 ∧
      (runBatch fs fs.length ⟨0, false, saved0, fs, info0⟩ events).pending =
        fs ∧
      (runBatch fs fs.length ⟨0, false, saved0, fs, info0⟩ events).failed =
        true ∧
      (runBatch fs fs.length ⟨0, false, saved0, fs, info0⟩ events).lastInfo =
        "❌Failed to save. Is the server running?" := by
  intro fs saved0 info0 events hlen hmem
  have hlt : (⟨0, false, saved0, fs, info0⟩ : BatchState).done +
      countOk events < fs.length := by
    have := countOk_lt_length hmem
    simp only
    omega
  obtain ⟨i1, i2, i3, i4, i5⟩ :=
    runBatch_no_promotion events fs fs.length ⟨0, false, saved0, fs, info0⟩ hlt
  refine ⟨i1, i2, ?_, ?_⟩
  · rw [i4]
    simp [hmem]
  · rw [i5]
    simp [hmem]

theorem finishBatch_failure_promotes_nothing_witness :
    (runBatch [1, 2, 3] [1, 2, 3].length
        ⟨0, false, [], [1, 2, 3], "start"⟩
        [CbEvent.ok, CbEvent.err, CbEvent.ok]).saved = [] ∧
    (runBatch [1, 2, 3] [1, 2, 3].length
        ⟨0, false, [], [1, 2, 3], "start"⟩
        [CbEvent.ok, CbEvent.err, CbEvent.ok]).pending = [1, 2, 3] ∧
    (runBatch [1, 2, 3] [1, 2, 3].length
        ⟨0, false, [], [1, 2, 3], "start"⟩
        [CbEvent.ok, CbEvent.err, CbEvent.ok]).failed = true ∧
    (runBatch [1, 2, 3] [1, 2, 3].length
        ⟨0, false, [], [1, 2, 3], "start"⟩
        [CbEvent.ok, CbEvent.err, CbEvent.ok]).lastInfo =
      "❌Failed to save. Is the server running?" :=
  finishBatch_failure_promotes_nothing [1, 2, 3] [] "start"
    [CbEvent.ok, CbEvent.err, CbEvent.ok] rfl (by decide)

/-- C6: for every finished shape the Geometry Service reprojects the
coordinates with the display→geographic transform, computes `value` by the
spherical length function on the reprojected line (resp. spherical area on
the reprojected polygon), fixes `unit` to `"m"` exactly for `"LineString"`
and `"m²"` exactly for `"Polygon"`, and wraps the result in a GeoJSON
Feature whose geometry type equals `type`, a polygon's coordinates being the
single outer ring nested in one extra array level. -/
theorem finishDrawing_geometry_service :
    ∀ (tf : ℚ × ℚ → ℚ × ℚ) (sphLen sphArea : OLGeom → ℚ),
      (∀ cs : List (ℚ × ℚ),
        convertFeature tf sphLen sphArea (some (OLGeom.lineString cs)) =
          some ⟨"LineString",
                ⟨"Feature", "LineString", CoordsVal.line (cs.map tf)⟩,
                sphLen (OLGeom.lineString (cs.map tf)), "m"⟩) ∧
      (∀ (ring : List (ℚ × ℚ)) (rest : List (List (ℚ × ℚ))),
        convertFeature tf sphLen sphArea
            (some (OLGeom.polygon (ring :: rest))) =
          some ⟨"Polygon",
                ⟨"Feature", "Polygon", CoordsVal.rings [ring.map tf]⟩,
                sphArea (OLGeom.polygon
                  ((ring :: rest).map (fun r => r.map tf))), "m²"⟩) ∧
      (∀ (g : Option OLGeom) (p : GeoPayload),
        convertFeature tf sphLen sphArea g = some p →
        ((p.unit = "m" ↔ p.ptype = "LineString") ∧
         (p.unit = "m²" ↔ p.ptype = "Polygon") ∧
         p.geojson.geometryType = p.ptype ∧
         p.geojson.featureType = "Feature")) := by
  intro tf sphLen sphArea
  refine ⟨fun cs => rfl, fun ring rest => rfl, ?_⟩
  intro g p h
  match g with
  | none => exact absurd h (by simp [convertFeature])
  | some (OLGeom.lineString cs) =>
      rw [show convertFeature tf sphLen sphArea (some (OLGeom.lineString cs)) =
            some ⟨"LineString",
                  ⟨"Feature", "LineString", CoordsVal.line (cs.map tf)⟩,
                  sphLen (OLGeom.lineString (cs.map tf)), "m"⟩ from rfl,
          Option.some_inj] at h
      subst h
      refine ⟨by simp, by simp, rfl, rfl⟩
  | some (OLGeom.polygon rs) =>
      rw [show convertFeature tf sphLen sphArea (some (OLGeom.polygon rs)) =
            some ⟨"Polygon",
                  ⟨"Feature", "Polygon",
                   CoordsVal.rings [(rs.map (fun r => r.map tf)).headD []]⟩,
                  sphArea (OLGeom.polygon (rs.map (fun r => r.map tf))),
                  "m²"⟩ from rfl,
          Option.some_inj] at h
      subst h
      refine ⟨by simp, by simp, rfl, rfl⟩
  | some OLGeom.otherGeom => exact absurd h (by simp [convertFeature])

theorem finishDrawing_geometry_service_witness :
    ((⟨"LineString",
       ⟨"Feature", "LineString", CoordsVal.line [(1, 2)]⟩,
       (0 : ℚ), "m"⟩ : GeoPayload).unit = "m" ↔
     (⟨"LineString",
       ⟨"Feature", "LineString", CoordsVal.line [(1, 2)]⟩,
       (0 : ℚ), "m"⟩ : GeoPayload).ptype = "LineString") ∧
    ((⟨"LineString",
       ⟨"Feature", "LineString", CoordsVal.line [(1, 2)]⟩,
       (0 : ℚ), "m"⟩ : GeoPayload).unit = "m²" ↔
     (⟨"LineString",
       ⟨"Feature", "LineString", CoordsVal.line [(1, 2)]⟩,
       (0 : ℚ), "m"⟩ : GeoPayload).ptype = "Polygon") ∧
    (⟨"LineString",
      ⟨"Feature", "LineString", CoordsVal.line [(1, 2)]⟩,
      (0 : ℚ), "m"⟩ : GeoPayload).geojson.geometryType =
      (⟨"LineString",
        ⟨"Feature", "LineString", CoordsVal.line [(1, 2)]⟩,
        (0 : ℚ), "m"⟩ : GeoPayload).ptype ∧
    (⟨"LineString",
      ⟨"Feature", "LineString", CoordsVal.line [(1, 2)]⟩,
      (0 : ℚ), "m"⟩ : GeoPayload).geojson.featureType = "Feature" :=
  (finishDrawing_geometry_service (fun c => c) (fun _ => 0) (fun _ => 0)).2.2
    (some (OLGeom.lineString [(1, 2)]))
    ⟨"LineString", ⟨"Feature", "LineString", CoordsVal.line [(1, 2)]⟩, 0, "m"⟩
    rfl

end MapAssign
